import Mathlib

/-!
Verification of the Kaltura simple React components library.

The development shallowly embeds the parts of the library that the
specification talks about:

* the vendor-script URL computation and the process-wide script-loaded flag
  of the Player component (src/lib/components/Player.js),
* the imperative play/pause handle a Player exposes to its parent,
* the player registry and hover coordinator of the PlayersGallery component
  (src/lib/components/PlayersGallery.js),
* the search-response post-processing of the SearchResultsWithGallery
  component (thumbnail URL derivation and identifier assignment), and
* the gallery rendering pipeline (filtering on entry_id, ref allocation).

JavaScript nullable strings are modelled as Option String; JS template
interpolation of null is the string "null"; JS truthiness of a string is
"non-empty".  Side effects (commands sent to the vendor player instance and
to the DOM) are made explicit as command lists returned next to the new
state.  Timers are modelled by an explicit pending-timer field plus a
timer-fire event, which matches the code's use of a single mouseLeaveTimeout
slot that each handler clears and overwrites.
-/

namespace KalturaSimpleReact

/-- Truthiness of a JS string-or-null value: null and the empty string are
falsy, every other string is truthy. -/
def jsStringTruthy : Option String → Bool
  | none => false
  | some s => s ≠ ""

/-- JS template-literal interpolation of a string-or-null value: null prints
as the string "null". -/
def jsInterpOptString : Option String → String
  | none => "null"
  | some s => s

/-- Default Kaltura service URL, Player.js line 15. -/
def DEFAULT_KALTURA_URL : String := "https://cdnapi-ev.kaltura.com"

/-- The service URL actually used by the script-loading effect, translated
from Player.js lines 78-81.  The source expression is the JS ternary
  props.kalturaServiceUrl || props.kalturaServiceUrl === "" ? DEFAULT : props.kalturaServiceUrl
which by JS precedence parses as
  (truthy(url) or url === "") ? DEFAULT : url . -/
def effectiveKalturaServiceUrl (kalturaServiceUrl : Option String) : Option String :=
  if jsStringTruthy kalturaServiceUrl || kalturaServiceUrl == some "" then
    some DEFAULT_KALTURA_URL
  else
    kalturaServiceUrl

/-- Vendor script URL constructed by the Player component, Player.js line 83. -/
def scriptUrl (kalturaServiceUrl : Option String) (partnerId uiConfId : Nat) : String :=
  jsInterpOptString (effectiveKalturaServiceUrl kalturaServiceUrl) ++ "/p/"
    ++ toString partnerId ++ "/embedPlaykitJs/uiconf_id/" ++ toString uiConfId

/-- Modelled from the spec: the script URL the specification says is
constructed, namely serviceBaseUrl followed by /p/, the account id,
/embedPlaykitJs/uiconf_id/ and the player config id, where serviceBaseUrl is
the caller-configured service base URL, falling back to the documented
default only when no URL is configured.  This definition follows the claim
wording and exists to be compared with scriptUrl, which is translated from
the source. -/
def claimedScriptUrl (kalturaServiceUrl : Option String) (partnerId uiConfId : Nat) : String :=
  kalturaServiceUrl.getD DEFAULT_KALTURA_URL ++ "/p/"
    ++ toString partnerId ++ "/embedPlaykitJs/uiconf_id/" ++ toString uiConfId

/-- State of the process-wide script loading machinery: the module-level
scriptLoadedGlobally flag (Player.js line 14), the number of script elements
appended to the document body so far, and the number of appended scripts
whose onload handler has not yet run. -/
structure ScriptLoadState where
  scriptLoadedGlobally : Bool
  appendedScripts : Nat
  pendingOnloads : Nat
deriving DecidableEq, Repr

/-- Events of the script-loading machinery: a Player instance mounts and its
script-loading effect runs (Player.js lines 77-99), or the onload handler of
one previously appended script element fires (Player.js lines 93-96). -/
inductive ScriptEvent
  | mountEffect
  | onloadFire
deriving DecidableEq, Repr

/-- One step of the script-loading machinery, translated from Player.js
lines 85-98: a mounting instance checks the flag and either skips loading or
appends a script element; an onload handler sets the flag. -/
def scriptStep (s : ScriptLoadState) : ScriptEvent → ScriptLoadState
  | .mountEffect =>
      if s.scriptLoadedGlobally then s
      else { s with
               appendedScripts := s.appendedScripts + 1,
               pendingOnloads := s.pendingOnloads + 1 }
  | .onloadFire =>
      if s.pendingOnloads > 0 then
        { s with scriptLoadedGlobally := true, pendingOnloads := s.pendingOnloads - 1 }
      else s

/-- Initial script-loading state: the flag starts unset at process start and
no script element has been appended. -/
def scriptInit : ScriptLoadState :=
  { scriptLoadedGlobally := false, appendedScripts := 0, pendingOnloads := 0 }

/-- Run the script-loading machinery over a sequence of events. -/
def scriptRun (s : ScriptLoadState) (es : List ScriptEvent) : ScriptLoadState :=
  es.foldl scriptStep s

/-- Lifecycle state of one Player component instance: the playerInstance
React state (none before setup completes, numbered vendor instances
otherwise), the playerInstance value captured by the unmount-cleanup closure,
and the list of vendor instances on which destroy was invoked.  The cleanup
effect (Player.js lines 113-119) has an empty dependency array, so it runs
exactly once after the mount render and the cleanup it returns closes over
the playerInstance value of that first render. -/
structure PlayerLifecycle where
  playerInstance : Option Nat
  unmountCleanupCapture : Option Nat
  destroyCalls : List Nat
deriving DecidableEq, Repr

/-- Lifecycle events of one Player component instance: the mount render
runs its empty-dependency effect (capturing the current playerInstance in
the cleanup closure), the async setup completes and stores a vendor
instance, or the component unmounts and React invokes the captured cleanup. -/
inductive PlayerEvent
  | mountRender
  | setupComplete (inst : Nat)
  | unmount
deriving DecidableEq, Repr

/-- One lifecycle step of a Player instance, translated from Player.js: the
unmount branch is the cleanup of lines 113-119, which destroys the captured
playerInstance only if that captured value is non-null. -/
def playerStep (s : PlayerLifecycle) : PlayerEvent → PlayerLifecycle
  | .mountRender => { s with unmountCleanupCapture := s.playerInstance }
  | .setupComplete inst => { s with playerInstance := some inst }
  | .unmount =>
      match s.unmountCleanupCapture with
      | some inst => { s with destroyCalls := s.destroyCalls ++ [inst] }
      | none => s

/-- Initial lifecycle state of a Player instance: useState(null). -/
def playerLifecycleInit : PlayerLifecycle :=
  { playerInstance := none, unmountCleanupCapture := none, destroyCalls := [] }

/-- Run a Player instance lifecycle over a sequence of events. -/
def playerLifecycleRun (s : PlayerLifecycle) (es : List PlayerEvent) : PlayerLifecycle :=
  es.foldl playerStep s

/-- Commands sent by the components to the vendor player instances (numbered
by Nat) and to the DOM: setting currentTime on an instance, calling play or
pause on an instance, and calling scrollIntoView with smooth behavior on the
container registered under a uniqueGuiId. -/
inductive Cmd
  | setCurrentTime (inst : Nat) (t : Int)
  | play (inst : Nat)
  | pause (inst : Nat)
  | scrollSmooth (uniqueGuiId : String)
deriving DecidableEq, Repr

/-- The playKalturaPlayer method of the imperative handle a Player exposes,
translated from Player.js lines 53-60: given the adapter's playerInstance
(none before setup completes) and an optional seek target, set currentTime
when a seek target is given and then play; do nothing without an instance. -/
def playKalturaPlayer (playerInstance : Option Nat) (seekTo : Option Int) : List Cmd :=
  match playerInstance with
  | none => []
  | some inst =>
      (match seekTo with
       | some t => [Cmd.setCurrentTime inst t]
       | none => []) ++ [Cmd.play inst]

/-- The pauseKalturaPlayer method of the imperative handle, translated from
Player.js lines 65-69. -/
def pauseKalturaPlayer (playerInstance : Option Nat) : List Cmd :=
  match playerInstance with
  | none => []
  | some inst => [Cmd.pause inst]

/-- Registry state of a PlayersGallery instance.  playerRefs maps a
uniqueGuiId to none when no live imperative handle resolves for it (either
no ref was created for the id or the ref's current is null), and to some
playerInstance when a live handle resolves, where playerInstance is the
adapter's vendor instance (none before the adapter's setup completes).
containerRefs records whether a live container element resolves for the id.
playingUniqueGuiId is the current playing identifier state (PlayersGallery.js
line 40). -/
structure GalleryState where
  playerRefs : String → Option (Option Nat)
  containerRefs : String → Bool
  playingUniqueGuiId : Option String

/-- playKalturaPlayerByUniqueId, translated from PlayersGallery.js lines
67-77: when a live handle resolves for the id, command it to play (with the
optional seek time), record the id as the current playing identifier, and,
when a live container also resolves, request a smooth scroll into view;
otherwise do nothing. -/
def playKalturaPlayerByUniqueId (s : GalleryState) (uniqueGuiId : String)
    (seekTime : Option Int) : GalleryState × List Cmd :=
  match s.playerRefs uniqueGuiId with
  | some inst =>
      let playCmds := playKalturaPlayer inst seekTime
      let scrollCmds := if s.containerRefs uniqueGuiId then [Cmd.scrollSmooth uniqueGuiId] else []
      ({ s with playingUniqueGuiId := some uniqueGuiId }, playCmds ++ scrollCmds)
  | none => (s, [])

/-- pauseKalturaPlayerByUniqueId, translated from PlayersGallery.js lines
83-90: when a live handle resolves for the id, command it to pause and, if
the id equals the current playing identifier, clear that identifier;
otherwise do nothing. -/
def pauseKalturaPlayerByUniqueId (s : GalleryState) (uniqueGuiId : String) :
    GalleryState × List Cmd :=
  match s.playerRefs uniqueGuiId with
  | some inst =>
      let s2 := if s.playingUniqueGuiId = some uniqueGuiId then
                  { s with playingUniqueGuiId := none }
                else s
      (s2, pauseKalturaPlayer inst)
  | none => (s, [])

/-- Concrete registry state used to witness the playById contract: one entry
under id A with a live handle whose adapter holds vendor instance 0 and a
live container; nothing is playing. -/
def galleryStateA : GalleryState :=
  { playerRefs := fun uniqueGuiId => if uniqueGuiId = "A" then some (some 0) else none
  , containerRefs := fun uniqueGuiId => uniqueGuiId == "A"
  , playingUniqueGuiId := none }

/-- Concrete registry state used against the play-then-pause claim: no live
handle resolves for any id, while id B is recorded as currently playing. -/
def galleryStateB : GalleryState :=
  { playerRefs := fun _ => none
  , containerRefs := fun _ => false
  , playingUniqueGuiId := some "B" }

/-- Concrete registry state used to witness the unknown-identifier no-op:
no live handle resolves for any id and id B is recorded as playing. -/
def galleryStateC : GalleryState :=
  { playerRefs := fun _ => none
  , containerRefs := fun _ => false
  , playingUniqueGuiId := some "B" }

/-- JS Array.prototype.findIndex over a list of uniqueGuiIds: the index of
the first match, or -1 when there is none (PlayersGallery.js lines 108-110). -/
def findIndexJS (ids : List String) (uniqueGuiId : String) : Int :=
  match ids.findIdx? (fun x => x == uniqueGuiId) with
  | some n => (n : Int)
  | none => -1

/-- The single pending debounce timer held in the mouseLeaveTimeout state
slot: either the timer set by handleMouseEnter (carrying the hovered id and
the index computed at enter time) or the timer set by handleMouseLeave
(carrying the departed id). -/
inductive PendingTimer
  | enterTimer (uniqueGuiId : String) (index : Int)
  | leaveTimer (uniqueGuiId : String)
deriving DecidableEq, Repr

/-- Configuration of the hover coordinator: the shouldPlayOnHover prop and
the uniqueGuiIds of data.ref in order (used by findIndex at enter time). -/
structure HoverConfig where
  shouldPlayOnHover : Bool
  dataRefIds : List String

/-- State of the hover coordinator of a PlayersGallery instance: the
registry state, the hoverVideoId highlight index, the pending debounce
timer, and the log of arguments passed to the external onHover callback. -/
structure HoverState where
  gallery : GalleryState
  hoverVideoId : Option Int
  mouseLeaveTimeout : Option PendingTimer
  onHoverCalls : List (Option Int)

/-- Events driving the hover coordinator: a pointer enters the item with the
given uniqueGuiId, a pointer leaves it, or the pending debounce timer fires
after MOUSE_LEAVE_DELAY. -/
inductive HoverEvent
  | mouseEnter (uniqueGuiId : String)
  | mouseLeave (uniqueGuiId : String)
  | timerFire
deriving DecidableEq, Repr

/-- One step of the hover coordinator, translated from PlayersGallery.js
lines 105-144.  handleMouseEnter computes the index of the hovered id in
data.ref, clears any pending timer and arms the enter timer; handleMouseLeave
clears any pending timer and arms the leave timer.  When the enter timer
fires it plays the hovered entry (when shouldPlayOnHover), sets hoverVideoId
to the computed index and calls onHover with that index; when the leave timer
fires it pauses the departed entry (when shouldPlayOnHover) and sets
hoverVideoId to null, without calling onHover. -/
def hoverStep (cfg : HoverConfig) (s : HoverState) : HoverEvent → HoverState × List Cmd
  | .mouseEnter uniqueGuiId =>
      let index := findIndexJS cfg.dataRefIds uniqueGuiId
      ({ s with mouseLeaveTimeout := some (.enterTimer uniqueGuiId index) }, [])
  | .mouseLeave uniqueGuiId =>
      ({ s with mouseLeaveTimeout := some (.leaveTimer uniqueGuiId) }, [])
  | .timerFire =>
      match s.mouseLeaveTimeout with
      | none => (s, [])
      | some (.enterTimer uniqueGuiId index) =>
          let gc :=
            if cfg.shouldPlayOnHover then playKalturaPlayerByUniqueId s.gallery uniqueGuiId none
            else (s.gallery, [])
          ({ gallery := gc.1
           , hoverVideoId := some index
           , mouseLeaveTimeout := none
           , onHoverCalls := s.onHoverCalls ++ [some index] }, gc.2)
      | some (.leaveTimer uniqueGuiId) =>
          let gc :=
            if cfg.shouldPlayOnHover then pauseKalturaPlayerByUniqueId s.gallery uniqueGuiId
            else (s.gallery, [])
          ({ gallery := gc.1
           , hoverVideoId := none
           , mouseLeaveTimeout := none
           , onHoverCalls := s.onHoverCalls }, gc.2)

/-- Run the hover coordinator over a sequence of events, accumulating the
commands it issues. -/
def hoverRun (cfg : HoverConfig) : HoverState → List HoverEvent → HoverState × List Cmd
  | s, [] => (s, [])
  | s, e :: es =>
      let sc := hoverStep cfg s e
      let rest := hoverRun cfg sc.1 es
      (rest.1, sc.2 ++ rest.2)

/-- Does a command start or position playback (a play or a seek)?  Used to
state that a trace issues no play command. -/
def Cmd.isPlayLike : Cmd → Bool
  | .play _ => true
  | .setCurrentTime _ _ => true
  | _ => false

/-- Concrete hover configuration: play-on-hover enabled, one entry with id A. -/
def hoverCfgA : HoverConfig :=
  { shouldPlayOnHover := true, dataRefIds := ["A"] }

/-- Concrete hover state with a live handle (vendor instance 0) for id A, a
pending leave timer for A, highlight on index 0 and id A playing. -/
def hoverStateLeavePending : HoverState :=
  { gallery :=
      { playerRefs := fun uniqueGuiId => if uniqueGuiId = "A" then some (some 0) else none
      , containerRefs := fun _ => true
      , playingUniqueGuiId := some "A" }
  , hoverVideoId := some 0
  , mouseLeaveTimeout := some (PendingTimer.leaveTimer "A")
  , onHoverCalls := [] }

/-- Concrete hover state with a live handle (vendor instance 0) for id A, no
pending timer, nothing playing and no highlight. -/
def hoverStateIdle : HoverState :=
  { gallery :=
      { playerRefs := fun uniqueGuiId => if uniqueGuiId = "A" then some (some 0) else none
      , containerRefs := fun _ => true
      , playingUniqueGuiId := none }
  , hoverVideoId := none
  , mouseLeaveTimeout := none
  , onHoverCalls := [] }

/-- One element of the ref array of a search API response, before the
client-side post-processing (SearchResultsWithGallery.js propTypes).  The
entry_id may arrive null from the wire; score is a JS number that is only
carried along, never computed with, and is modelled as a rational. -/
structure RawRef where
  video_transcript_segment : String
  sentence_from_model_answer : String
  entry_id : Option String
  segment_title : String
  time : Int
  score : Rat
deriving DecidableEq, Repr

/-- A ref array element after the post-processing of fetchResults, which
adds the derived entry_thumbnail URL and the generated uniqueGuiId. -/
structure ProcessedRef extends RawRef where
  entry_thumbnail : String
  uniqueGuiId : String
deriving DecidableEq, Repr

/-- Thumbnail URL derived for one response entry, translated from
SearchResultsWithGallery.js line 260. -/
def entryThumbnailUrl (kalturaServiceUrl : Option String) (partnerId : Nat) (r : RawRef) : String :=
  jsInterpOptString kalturaServiceUrl ++ "/p/" ++ toString partnerId
    ++ "/thumbnail/entry_id/" ++ jsInterpOptString r.entry_id
    ++ "/vid_sec/" ++ toString r.time

/-- Modelled from the spec: the thumbnail URL pattern serviceBaseUrl
followed by /p/, the account id, /thumbnail/entry_id/, the entry id,
/vid_sec/ and the start seconds.  This definition follows the spec wording
and exists to be compared with entryThumbnailUrl, which is translated from
the source. -/
def specThumbnailUrlPattern (serviceBaseUrl : String) (accountId : Nat)
    (entryId : String) (startSeconds : Int) : String :=
  serviceBaseUrl ++ "/p/" ++ toString accountId
    ++ "/thumbnail/entry_id/" ++ entryId
    ++ "/vid_sec/" ++ toString startSeconds

/-- Post-processing of the response's ref array, translated from
SearchResultsWithGallery.js lines 256-263: each entry gets its derived
entry_thumbnail and a uniqueGuiId drawn from uuidv4.  The uuid generator is
modelled as a stream of strings indexed by how many draws happened before;
the counter argument is the index of the next draw. -/
def processSearchRefs (kalturaServiceUrl : Option String) (partnerId : Nat)
    (uuids : Nat → String) : Nat → List RawRef → List ProcessedRef
  | _, [] => []
  | i, r :: rs =>
      { toRawRef := r
      , entry_thumbnail := entryThumbnailUrl kalturaServiceUrl partnerId r
      , uniqueGuiId := uuids i } :: processSearchRefs kalturaServiceUrl partnerId uuids (i + 1) rs

/-- Concrete response entry used for the determinism claims. -/
def rawRefA : RawRef :=
  { video_transcript_segment := "segment"
  , sentence_from_model_answer := "sentence"
  , entry_id := some "0_abc"
  , segment_title := "title"
  , time := 12
  , score := 0 }

/-- The filter the gallery applies before rendering items, translated from
PlayersGallery.js line 152: keep an entry iff its entry_id is neither null
nor the empty string. -/
def galleryEntryVisible (r : ProcessedRef) : Bool :=
  r.entry_id != none && r.entry_id != some ""

/-- One rendered gallery item: its React key, its data-index within the
filtered list, the playerId handed to the Player, and the source entry it
was rendered from (PlayersGallery.js lines 153-192). -/
structure GalleryItem where
  key : String
  dataIndex : Nat
  playerId : String
  entry : ProcessedRef
deriving DecidableEq, Repr

/-- Map the filtered entries to gallery items with their position in the
filtered list, translated from the map callback of PlayersGallery.js lines
153-192. -/
def renderGalleryItems (playerIdTemplate : String) : Nat → List ProcessedRef → List GalleryItem
  | _, [] => []
  | index, r :: rs =>
      { key := r.uniqueGuiId
      , dataIndex := index
      , playerId := playerIdTemplate ++ "_" ++ r.uniqueGuiId
      , entry := r } :: renderGalleryItems playerIdTemplate (index + 1) rs

/-- The gallery render pipeline, translated from PlayersGallery.js lines
151-193: filter data.ref on entry_id and map the survivors to items. -/
def renderPlayersGallery (playerIdTemplate : String) (dataRef : List ProcessedRef) :
    List GalleryItem :=
  renderGalleryItems playerIdTemplate 0 (dataRef.filter galleryEntryVisible)

/-- Keys for which the ref-allocation effect creates a player ref,
translated from PlayersGallery.js lines 47-50: one per entry of data.ref,
keyed by uniqueGuiId, with no filtering. -/
def allocatedPlayerRefKeys (dataRef : List ProcessedRef) : List String :=
  dataRef.map ProcessedRef.uniqueGuiId

/-- Keys for which the ref-allocation effect creates a container ref,
translated from PlayersGallery.js lines 51-54. -/
def allocatedContainerRefKeys (dataRef : List ProcessedRef) : List String :=
  dataRef.map ProcessedRef.uniqueGuiId

/-- C1: refuted on the source.  The claim says that across every sequence of
Player mounts only the first instance appends a script element and every
subsequent instance skips loading.  Evaluating the script-loading machinery
on two mounts that both happen before any onload fires (exactly what happens
when a gallery mounts several Players in one commit, since the flag is only
set inside the onload handler) shows the second mount also appends: two
script elements are appended and the flag is still unset afterwards. -/
theorem c1_secondMountAlsoAppendsScript :
    (scriptRun scriptInit [ScriptEvent.mountEffect, ScriptEvent.mountEffect]).appendedScripts = 2
    ∧ (scriptRun scriptInit
        [ScriptEvent.mountEffect, ScriptEvent.mountEffect]).scriptLoadedGlobally = false := by
  exact ⟨rfl, rfl⟩

/-- C2: refuted on the source.  The claim says unmount teardown always
destroys a live player instance.  The cleanup returned by the
empty-dependency effect of Player.js lines 113-119 closes over the
playerInstance of the mount render, which is null; after setup completes
with a live instance 7 and the component unmounts, the captured value is
still null, so no destroy call is issued even though a live instance exists. -/
theorem c2_unmountNeverDestroysLiveInstance :
    (playerLifecycleRun playerLifecycleInit
        [PlayerEvent.mountRender, PlayerEvent.setupComplete 7, PlayerEvent.unmount]).playerInstance
      = some 7
    ∧ (playerLifecycleRun playerLifecycleInit
        [PlayerEvent.mountRender, PlayerEvent.setupComplete 7, PlayerEvent.unmount]).destroyCalls
      = [] := by
  exact ⟨rfl, rfl⟩

/-- C6: refuted on the source.  The claim says the vendor script URL is
built from the caller-configured service base URL, falling back to the
default only when none is configured.  With the configured URL
https://example.com the code builds the URL from the default service URL
instead, because the inverted ternary of Player.js lines 78-81 replaces
every truthy configured URL with the default; an explicitly null URL is
interpolated as the string null rather than falling back. -/
theorem c6_scriptUrlIgnoresConfiguredUrl :
    scriptUrl (some "https://example.com") 123 456
      = "https://cdnapi-ev.kaltura.com/p/123/embedPlaykitJs/uiconf_id/456"
    ∧ scriptUrl (some "https://example.com") 123 456
        ≠ claimedScriptUrl (some "https://example.com") 123 456
    ∧ scriptUrl none 123 456 = "null/p/123/embedPlaykitJs/uiconf_id/456" := by
  refine ⟨rfl, ?_, rfl⟩
  decide

/-- C3: for every registry state and identifier for which a live handle
(with vendor instance inst) and a live container resolve,
playKalturaPlayerByUniqueId seeks (when a seek time is given) and then
plays, records the identifier as the current playing identifier, and
requests a smooth scroll of the container into view. -/
theorem c3_playById_contract (s : GalleryState) (uniqueGuiId : String) (inst : Nat) (t : Int)
    (hp : s.playerRefs uniqueGuiId = some (some inst))
    (hc : s.containerRefs uniqueGuiId = true) :
    ((playKalturaPlayerByUniqueId s uniqueGuiId (some t)).1.playingUniqueGuiId = some uniqueGuiId
      ∧ (playKalturaPlayerByUniqueId s uniqueGuiId (some t)).2
          = [Cmd.setCurrentTime inst t, Cmd.play inst, Cmd.scrollSmooth uniqueGuiId])
    ∧ ((playKalturaPlayerByUniqueId s uniqueGuiId none).1.playingUniqueGuiId = some uniqueGuiId
      ∧ (playKalturaPlayerByUniqueId s uniqueGuiId none).2
          = [Cmd.play inst, Cmd.scrollSmooth uniqueGuiId]) := by
  simp [playKalturaPlayerByUniqueId, playKalturaPlayer, hp, hc]

/-- C3 witness: the contract evaluated on the concrete registry state with a
live handle and container for id A, at seek time 5. -/
theorem c3_playById_contract_witness :
    galleryStateA.playerRefs "A" = some (some 0)
    ∧ galleryStateA.containerRefs "A" = true
    ∧ (((playKalturaPlayerByUniqueId galleryStateA "A" (some 5)).1.playingUniqueGuiId = some "A"
        ∧ (playKalturaPlayerByUniqueId galleryStateA "A" (some 5)).2
            = [Cmd.setCurrentTime 0 5, Cmd.play 0, Cmd.scrollSmooth "A"])
      ∧ ((playKalturaPlayerByUniqueId galleryStateA "A" none).1.playingUniqueGuiId = some "A"
        ∧ (playKalturaPlayerByUniqueId galleryStateA "A" none).2
            = [Cmd.play 0, Cmd.scrollSmooth "A"])) :=
  ⟨rfl, rfl, c3_playById_contract galleryStateA "A" 0 5 rfl rfl⟩

/-- C5: for every registry state and identifier for which no live handle
resolves, playKalturaPlayerByUniqueId (with any seek time) and
pauseKalturaPlayerByUniqueId return the state unchanged, current playing
identifier included, and issue no command. -/
theorem c5_unknownId_noop (s : GalleryState) (uniqueGuiId : String) (seekTime : Option Int)
    (h : s.playerRefs uniqueGuiId = none) :
    playKalturaPlayerByUniqueId s uniqueGuiId seekTime = (s, [])
    ∧ pauseKalturaPlayerByUniqueId s uniqueGuiId = (s, []) := by
  constructor
  · simp [playKalturaPlayerByUniqueId, h]
  · simp [pauseKalturaPlayerByUniqueId, h]

/-- C5 witness: the no-op property evaluated on a concrete state where no
handle resolves for id A while id B is recorded as playing. -/
theorem c5_unknownId_noop_witness :
    galleryStateC.playerRefs "A" = none
    ∧ (playKalturaPlayerByUniqueId galleryStateC "A" (some 3) = (galleryStateC, [])
      ∧ pauseKalturaPlayerByUniqueId galleryStateC "A" = (galleryStateC, [])) :=
  ⟨rfl, c5_unknownId_noop galleryStateC "A" (some 3) rfl⟩

/-- C4 counterexample: the claim says playById(id) immediately followed by
pauseById(id) always leaves the current playing identifier cleared, for
every registry state and identifier.  In the concrete state where no live
handle resolves for id A while id B is recorded as playing, both calls are
no-ops and the playing identifier afterwards is still B, not null. -/
theorem c4_playPause_counterexample :
    (pauseKalturaPlayerByUniqueId
        (playKalturaPlayerByUniqueId galleryStateB "A" none).1 "A").1.playingUniqueGuiId
      = some "B"
    ∧ (some "B" : Option String) ≠ none := by
  exact ⟨rfl, by decide⟩

/-- C4 amended: when a live handle resolves for the identifier, playById
immediately followed by pauseById with that identifier leaves the current
playing identifier cleared; and pauseById clears the current playing
identifier exactly when a live handle resolves for the identifier and the
identifier equals the current playing identifier, leaving it unchanged
otherwise. -/
theorem c4_playPause_clears (s : GalleryState) (uniqueGuiId : String)
    (inst : Option Nat) (seekTime : Option Int)
    (hp : s.playerRefs uniqueGuiId = some inst) :
    (pauseKalturaPlayerByUniqueId
        (playKalturaPlayerByUniqueId s uniqueGuiId seekTime).1 uniqueGuiId).1.playingUniqueGuiId
      = none
    ∧ ∀ s2 : GalleryState,
        (pauseKalturaPlayerByUniqueId s2 uniqueGuiId).1.playingUniqueGuiId
          = if (s2.playerRefs uniqueGuiId).isSome ∧ s2.playingUniqueGuiId = some uniqueGuiId
            then none else s2.playingUniqueGuiId := by
  constructor
  · simp [playKalturaPlayerByUniqueId, pauseKalturaPlayerByUniqueId, hp]
  · intro s2
    rcases h2 : s2.playerRefs uniqueGuiId with _ | inst2
    · simp [pauseKalturaPlayerByUniqueId, h2]
    · by_cases hpl : s2.playingUniqueGuiId = some uniqueGuiId
      · simp [pauseKalturaPlayerByUniqueId, h2, hpl]
      · simp [pauseKalturaPlayerByUniqueId, h2, hpl]

/-- C4 witness: the amended property evaluated on the concrete state with a
live handle for id A. -/
theorem c4_playPause_clears_witness :
    galleryStateA.playerRefs "A" = some (some 0)
    ∧ ((pauseKalturaPlayerByUniqueId
          (playKalturaPlayerByUniqueId galleryStateA "A" none).1 "A").1.playingUniqueGuiId
        = none
      ∧ ∀ s2 : GalleryState,
          (pauseKalturaPlayerByUniqueId s2 "A").1.playingUniqueGuiId
            = if (s2.playerRefs "A").isSome ∧ s2.playingUniqueGuiId = some "A"
              then none else s2.playingUniqueGuiId) :=
  ⟨rfl, c4_playPause_clears galleryStateA "A" (some 0) none rfl⟩

/-- C7: refuted on the source.  The claim says that when a pointer-leave
timer fires with play-on-hover enabled, the coordinator pauses the hovered
entry, clears the highlight index and notifies the external hover callback
with null.  Evaluating the coordinator on a concrete state whose pending
timer is a leave timer for id A (live handle, vendor instance 0) shows it
pauses the entry and clears the highlight but leaves the onHover call log
empty: the callback is never notified, contradicting both the claim and the
documentation of the onHover prop. -/
theorem c7_leaveFire_missing_null_notification :
    (hoverStep hoverCfgA hoverStateLeavePending HoverEvent.timerFire).2 = [Cmd.pause 0]
    ∧ (hoverStep hoverCfgA hoverStateLeavePending HoverEvent.timerFire).1.hoverVideoId = none
    ∧ (hoverStep hoverCfgA hoverStateLeavePending HoverEvent.timerFire).1.onHoverCalls = []
    ∧ ([] : List (Option Int)) ≠ [none] := by
  refine ⟨rfl, rfl, rfl, by decide⟩

/-- C8 counterexample: the claim says a pointer-enter followed by a
pointer-leave before the debounce delay elapses results in no play or pause
command being issued.  From the concrete idle state with play-on-hover
enabled and a live handle (vendor instance 0) for id A, the trace
enter-A, leave-A, timer-fire issues a pause command: the leave handler arms
its own timer, and that timer's firing pauses the departed entry. -/
theorem c8_enterLeave_counterexample :
    (hoverRun hoverCfgA hoverStateIdle
        [HoverEvent.mouseEnter "A", HoverEvent.mouseLeave "A", HoverEvent.timerFire]).2
      = [Cmd.pause 0]
    ∧ ([Cmd.pause 0] : List Cmd) ≠ [] := by
  refine ⟨rfl, by decide⟩

/-- C8 amended: for every hover configuration, hover state and identifier, a
pointer-enter followed by a pointer-leave before the enter timer fires
cancels the pending enter commit: across the whole trace, timer expiry
included, no play or seek command is issued, the highlight index ends
cleared (never set to the entered index) and the external hover callback is
never invoked; when play-on-hover is enabled the leave's replacement timer
still issues a pause for the departed entry. -/
theorem c8_enterLeave_no_play (cfg : HoverConfig) (s : HoverState) (uniqueGuiId : String) :
    ((hoverRun cfg s
        [HoverEvent.mouseEnter uniqueGuiId, HoverEvent.mouseLeave uniqueGuiId,
          HoverEvent.timerFire]).2.all (fun c => !(Cmd.isPlayLike c)) = true)
    ∧ (hoverRun cfg s
        [HoverEvent.mouseEnter uniqueGuiId, HoverEvent.mouseLeave uniqueGuiId,
          HoverEvent.timerFire]).1.hoverVideoId = none
    ∧ (hoverRun cfg s
        [HoverEvent.mouseEnter uniqueGuiId, HoverEvent.mouseLeave uniqueGuiId,
          HoverEvent.timerFire]).1.onHoverCalls = s.onHoverCalls := by
  by_cases hph : cfg.shouldPlayOnHover
  · rcases hr : s.gallery.playerRefs uniqueGuiId with _ | inst
    · simp [hoverRun, hoverStep, pauseKalturaPlayerByUniqueId, hph, hr]
    · rcases inst with _ | i
      · simp [hoverRun, hoverStep, pauseKalturaPlayerByUniqueId, pauseKalturaPlayer, hph, hr]
      · simp [hoverRun, hoverStep, pauseKalturaPlayerByUniqueId, pauseKalturaPlayer,
          Cmd.isPlayLike, hph, hr]
  · simp [hoverRun, hoverStep, hph]

/-- C9 counterexample: the claim says the assigned identifier is a
deterministic function of the response plus configuration, identical across
two runs.  Two runs of the response post-processing on the same response
entry and the same configuration, differing only in the entropy consumed by
uuidv4, assign different identifiers. -/
theorem c9_identifier_not_deterministic :
    (processSearchRefs (some DEFAULT_KALTURA_URL) 123 (fun _ => "uuid-one") 0 [rawRefA]).map
        ProcessedRef.uniqueGuiId
      ≠ (processSearchRefs (some DEFAULT_KALTURA_URL) 123 (fun _ => "uuid-two") 0 [rawRefA]).map
        ProcessedRef.uniqueGuiId := by
  decide

/-- C9 amended: for every search response and configuration, the derived
thumbnail URL of each entry equals the pattern serviceBaseUrl/p/accountId/
thumbnail/entry_id/entryId/vid_sec/startSeconds and is deterministic: two
runs on the same response and configuration yield identical thumbnail URLs
whatever entropy the uuid generator consumes.  The assigned identifier, by
contrast, is a fresh uuidv4 draw and is not a function of response plus
configuration. -/
theorem c9_thumbnail_deterministic_and_pattern (kalturaServiceUrl : Option String)
    (partnerId : Nat) (u1 u2 : Nat → String) (i j : Nat) (refs : List RawRef) :
    (processSearchRefs kalturaServiceUrl partnerId u1 i refs).map ProcessedRef.entry_thumbnail
      = (processSearchRefs kalturaServiceUrl partnerId u2 j refs).map ProcessedRef.entry_thumbnail
    ∧ (processSearchRefs kalturaServiceUrl partnerId u1 i refs).map ProcessedRef.entry_thumbnail
      = refs.map (fun r => specThumbnailUrlPattern (jsInterpOptString kalturaServiceUrl)
          partnerId (jsInterpOptString r.entry_id) r.time) := by
  induction refs generalizing i j with
  | nil => exact ⟨rfl, rfl⟩
  | cons r rs ih =>
      refine ⟨?_, ?_⟩
      · simpa [processSearchRefs] using (ih (i + 1) (j + 1)).1
      · simpa [processSearchRefs, entryThumbnailUrl, specThumbnailUrlPattern]
          using (ih (i + 1) (j + 1)).2

/-- Helper: projecting the source entry back out of the rendered items gives
exactly the list the items were rendered from, whatever the start index. -/
theorem renderGalleryItems_map_entry (playerIdTemplate : String) (i : Nat)
    (l : List ProcessedRef) :
    (renderGalleryItems playerIdTemplate i l).map GalleryItem.entry = l := by
  induction l generalizing i with
  | nil => rfl
  | cons r rs ih => simp [renderGalleryItems, ih]

/-- Helper: the gallery's Bool filter agrees with the claim's predicate that
the entry_id is neither null nor the empty string. -/
theorem galleryEntryVisible_eq_decide (r : ProcessedRef) :
    galleryEntryVisible r = decide (r.entry_id ≠ none ∧ r.entry_id ≠ some "") := by
  rcases h : r.entry_id with _ | s
  · simp [galleryEntryVisible, h]
  · by_cases hs : s = ""
    · subst hs; simp [galleryEntryVisible, h]
    · simp [galleryEntryVisible, h, hs]

/-- C10: for every data set and player id template, the rendered gallery
items are exactly the entries of data.ref whose entry_id is neither null nor
the empty string, in the original order, while player and container refs are
allocated for every entry of data.ref. -/
theorem c10_gallery_renders_exactly_valid_entries (playerIdTemplate : String)
    (dataRef : List ProcessedRef) :
    (renderPlayersGallery playerIdTemplate dataRef).map GalleryItem.entry
      = dataRef.filter (fun r => decide (r.entry_id ≠ none ∧ r.entry_id ≠ some ""))
    ∧ allocatedPlayerRefKeys dataRef = dataRef.map ProcessedRef.uniqueGuiId
    ∧ allocatedContainerRefKeys dataRef = dataRef.map ProcessedRef.uniqueGuiId := by
  refine ⟨?_, rfl, rfl⟩
  have hpred : galleryEntryVisible
      = fun r => decide (r.entry_id ≠ none ∧ r.entry_id ≠ some "") :=
    funext galleryEntryVisible_eq_decide
  unfold renderPlayersGallery
  rw [renderGalleryItems_map_entry, hpred]

end KalturaSimpleReact
